/-
Formal model of the reconciling dual-write store of app/db.py (repository
kojoadu/YLN): local SQLite tables for users / mentors / mentees /
mentorships / sessions plus a pending_sheets_writes retry queue, mirrored
opportunistically to a Google-Sheets-backed external store.

The external store (gspread) is modelled as an oracle `SheetsEnv` fixing,
for one call, the worksheet contents and the outcome of each remote
operation (find / append / update / delete may raise).  Timestamps are
natural numbers; `uuid.uuid4()` is modelled by a strictly increasing
counter, which captures exactly the freshness of idempotency keys.
-/
import Mathlib

namespace YLN

/-- The three mirror operations of `dual_write` / `write_to_sheets`. -/
inductive Op
  | insert
  | update
  | delete
deriving DecidableEq, Repr

/-- Status column of `pending_sheets_writes`. -/
inductive PStatus
  | pending
  | processing
  | failed
deriving DecidableEq, Repr

/-- A Python dict payload: ordered field-name/value pairs.  Values are kept
as strings (ints are written in decimal, as `gspread.get_all_records`
round-trips them). -/
structure Payload where
  fields : List (String × String)
deriving DecidableEq, Repr

/-- `payload.get(key)` — first binding of `key`, if any. -/
def Payload.get (p : Payload) (k : String) : Option String :=
  (p.fields.find? (fun kv => kv.1 == k)).map (fun kv => kv.2)

/-- `payload.get(key, '')`. -/
def Payload.getD (p : Payload) (k : String) : String :=
  (p.get k).getD ""

/-- `list(payload.keys())`. -/
def Payload.keys (p : Payload) : List String :=
  p.fields.map (fun kv => kv.1)

/-- `payload[key] = value` (overwrite or append). -/
def Payload.set (p : Payload) (k v : String) : Payload :=
  if (p.fields.find? (fun kv => kv.1 == k)).isSome then
    ⟨p.fields.map (fun kv => if kv.1 == k then (k, v) else kv)⟩
  else
    ⟨p.fields ++ [(k, v)]⟩

/-- Python `str.lower()`, modelled character-wise. -/
def pyLower (s : String) : String :=
  ⟨s.data.map Char.toLower⟩

/-- One worksheet of the spreadsheet: `headers` is row 1
(`worksheet.row_values(1)`), `rows` are the data rows, 0-indexed. -/
structure Worksheet where
  headers : List String
  rows : List (List String)
deriving DecidableEq, Repr

/-- Overwrite data row `i` (`worksheet.update(f'{row}:{row}', ...)`). -/
def Worksheet.setRow (ws : Worksheet) (i : Nat) (row : List String) : Worksheet :=
  { ws with rows := ws.rows.set i row }

/-- `worksheet.delete_rows(row)` on data row `i`. -/
def Worksheet.deleteRow (ws : Worksheet) (i : Nat) : Worksheet :=
  { ws with rows := ws.rows.eraseIdx i }

/-- Outcome of `worksheet.find(value)`: a cell in data row `i`, no cell,
or an exception from the remote call. -/
inductive FindOutcome
  | found (row : Nat)
  | notFound
  | raises
deriving DecidableEq, Repr

/-- Oracle for one interaction with the external store: the worksheet
`get_worksheet` yields (`none` = unavailable), what `find` answers for each
value, and whether each remote mutation raises. -/
structure SheetsEnv where
  worksheet : Option Worksheet
  find : String → FindOutcome
  readRaises : Bool
  headerWriteRaises : Bool
  appendRaises : Bool
  updateRaises : Bool
  deleteRaises : Bool

/-- The `operation == 'insert'` branch of `write_to_sheets`
(db.py:334-346), on an available worksheet: read the headers; when row 1
is empty create them from the payload keys via `worksheet.update('1:1')`;
append `[payload.get(h, '') for h in headers]`.  Any exception is caught
by the outer handler and yields `False`. -/
def insertIntoWorksheet (env : SheetsEnv) (ws : Worksheet) (payload : Payload) :
    Bool × Option Worksheet :=
  if ws.headers.isEmpty then
    if env.headerWriteRaises then (false, some ws)
    else
      let headers := payload.keys
      let ws1 : Worksheet := { ws with headers := headers }
      if env.appendRaises then (false, some ws1)
      else (true, some { ws1 with rows := ws1.rows ++ [headers.map payload.getD] })
  else
    if env.appendRaises then (false, some ws)
    else (true, some { ws with rows := ws.rows ++ [ws.headers.map payload.getD] })

/-- `write_to_sheets(entity_type, operation, payload)` (db.py:324-392).
Returns the boolean result together with the worksheet contents after the
call (`none` when `get_worksheet` failed).

* insert: `insertIntoWorksheet`.
* update: a falsy `payload.get('id')` yields `False`; otherwise
  `worksheet.find(str(id))` — a found cell is overwritten in place, while
  *no cell* or *an exception anywhere in the try block* falls back to the
  recursive call `write_to_sheets(entity_type, 'insert', payload)`, which
  re-fetches the same worksheet from the unchanged environment and so
  equals `insertIntoWorksheet` on it.
* delete: a falsy id yields `False`; otherwise the row is deleted when
  found, and any failure of find/delete is swallowed — the function still
  returns `True`. -/
def write_to_sheets (env : SheetsEnv) (entity_type : String) (operation : Op)
    (payload : Payload) : Bool × Option Worksheet :=
  match env.worksheet with
  | none => (false, none)
  | some ws =>
    match operation with
    | .insert => insertIntoWorksheet env ws payload
    | .update =>
      match payload.get "id" with
      | none => (false, some ws)
      | some idv =>
        if idv = "" then (false, some ws)  -- Python falsy id
        else
          match env.find idv with
          | .found r =>
            if env.updateRaises then
              -- exception inside the try: fall back to insert
              insertIntoWorksheet env ws payload
            else (true, some (ws.setRow r (ws.headers.map payload.getD)))
          | .notFound => insertIntoWorksheet env ws payload
          | .raises => insertIntoWorksheet env ws payload
    | .delete =>
      match payload.get "id" with
      | none => (false, some ws)
      | some idv =>
        if idv = "" then (false, some ws)
        else
          match env.find idv with
          | .found r =>
            if env.deleteRaises then (true, some ws)  -- swallowed, still True
            else (true, some (ws.deleteRow r))
          | .notFound => (true, some ws)
          | .raises => (true, some ws)  -- swallowed, still True

/-- `worksheet.get_all_records()`: one dict per data row, zipping row 1
headers with the row's cells. -/
def Worksheet.getAllRecords (ws : Worksheet) : List Payload :=
  ws.rows.map (fun row => ⟨ws.headers.zip row⟩)

/-- `read_from_sheets(entity_type, filters)` (db.py:473-501).  Returns all
records of the worksheet, filtered by exact case-insensitive equality on
every filter field (`str(record.get(key, '')).lower() != str(value).lower()`
rejects).  Any failure — worksheet unavailable, remote read raising — is
caught and yields the empty list. -/
def read_from_sheets (env : SheetsEnv) (filters : List (String × String)) :
    List Payload :=
  match env.worksheet with
  | none => []
  | some ws =>
    if env.readRaises then []
    else
      let records := ws.getAllRecords
      if filters.isEmpty then records
      else
        records.filter (fun r =>
          filters.all (fun kv => (pyLower (r.getD kv.1)) == pyLower kv.2))

/-- db.py:512-515 — if the sheets record has no `password_hash` but has a
`password` column, copy it over under the canonical name. -/
def aliasCredential (r : Payload) : Payload :=
  if (r.get "password_hash").isNone && (r.get "password").isSome then
    r.set "password_hash" ((r.get "password").getD "")
  else r

/-- One row of the local `users` table. -/
structure UserRow where
  id : Nat
  email : String
  password_hash : String
  role : String
  is_verified : Nat
  created_at : Nat
deriving DecidableEq, Repr

/-- `dict(row)` for a `SELECT * FROM users` row. -/
def UserRow.toPayload (u : UserRow) : Payload :=
  ⟨[("id", toString u.id), ("email", u.email), ("password_hash", u.password_hash),
    ("role", u.role), ("is_verified", toString u.is_verified),
    ("created_at", toString u.created_at)]⟩

/-- `dict(row)` for the `SELECT id, email, role, is_verified, created_at`
projection used by `list_users` (db.py:554-557). -/
def UserRow.toListPayload (u : UserRow) : Payload :=
  ⟨[("id", toString u.id), ("email", u.email), ("role", u.role),
    ("is_verified", toString u.is_verified), ("created_at", toString u.created_at)]⟩

/-- The SQLite fallback of `get_user_by_email`:
`SELECT * FROM users WHERE email = ?` with the lowercased email. -/
def localUserByEmail (users : List UserRow) (email : String) : Option Payload :=
  (users.find? (fun u => u.email == pyLower email)).map UserRow.toPayload

/-- `get_user_by_email(email)` (db.py:504-530).  When sheets are enabled the
external store is consulted first with a case-insensitive email filter; the
first match is returned once the credential field exists (after the
`password` alias), and every other outcome — read failure, no match,
credential still missing — falls back to the local row for that email. -/
def get_user_by_email (enabled : Bool) (env : SheetsEnv) (users : List UserRow)
    (email : String) : Option Payload :=
  let fromSheets : Option Payload :=
    if enabled then
      match read_from_sheets env [("email", pyLower email)] with
      | [] => none
      | r :: _ =>
        let r1 := aliasCredential r
        if (r1.get "password_hash").isNone then none  -- fall back to SQLite
        else some r1
    else none
  match fromSheets with
  | some r => some r
  | none => localUserByEmail users email

/-- `list_users()` (db.py:549-576).  Local rows are fetched first; when
sheets are enabled and return a non-empty record list, the records are
filtered down to ids present locally, and that filtered list is returned
unless it is empty, in which case the local list is returned. -/
def list_users (enabled : Bool) (env : SheetsEnv) (users : List UserRow) :
    List Payload :=
  let sqlite_users := users.map UserRow.toListPayload
  let sheets_users := if enabled then read_from_sheets env [] else []
  if enabled && !sheets_users.isEmpty then
    let sqlite_ids := users.map (fun u => toString u.id)
    let valid_sheets_users := sheets_users.filter (fun r =>
      match r.get "id" with
      | some v => sqlite_ids.contains v
      | none => false)
    if valid_sheets_users.isEmpty then sqlite_users else valid_sheets_users
  else sqlite_users

/-- One row of `mentors`.  The NOT NULL name/email columns are taken from
the payload with `payload.get(..., '')`; nullable columns stay optional. -/
structure MentorRow where
  id : Nat
  first_name : String
  last_name : String
  phone : Option String
  email : String
  work_profile : Option String
  bio : Option String
  profile_pic : Option String
  is_active : Nat
  created_at : Nat
deriving DecidableEq, Repr

/-- One row of `mentees`. -/
structure MenteeRow where
  id : Nat
  user_id : Nat
  first_name : String
  last_name : String
  phone : Option String
  email : String
  work_profile : Option String
  profile_pic : Option String
  created_at : Nat
deriving DecidableEq, Repr

/-- One row of `mentorships`. -/
structure MentorshipRow where
  id : Nat
  mentor_id : Nat
  mentee_id : Nat
  created_at : Nat
deriving DecidableEq, Repr

/-- One row of `sessions`. -/
structure SessionRow where
  id : Nat
  user_id : Nat
  token : String
  expires_at : Nat
  created_at : Nat
deriving DecidableEq, Repr

/-- One row of `verification_tokens` / `password_reset_tokens`. -/
structure TokenRow where
  id : Nat
  user_id : Nat
  token : String
  expires_at : Nat
  used : Nat
  created_at : Nat
deriving DecidableEq, Repr

/-- One row of `pending_sheets_writes`.  The idempotency key (a uuid4 in
the source) is modelled by a Nat drawn from a strictly increasing
counter. -/
structure PendingRow where
  id : Nat
  entity_type : String
  operation : Op
  payload : Payload
  idempotency_key : Nat
  status : PStatus
  attempts : Nat
  next_retry_at : Nat
  last_error : Option String
  created_at : Nat
  updated_at : Nat
deriving DecidableEq, Repr

/-- The local SQLite database plus the model bookkeeping: autoincrement
counters, the uuid counter, and an observation log of the external writes
that succeeded (one entry per successful `write_to_sheets` call made on
behalf of a mutation). -/
structure Sys where
  users : List UserRow
  mentors : List MentorRow
  mentees : List MenteeRow
  mentorships : List MentorshipRow
  sessionsTbl : List SessionRow
  verifTokens : List TokenRow
  resetTokens : List TokenRow
  pending : List PendingRow
  nextUserId : Nat
  nextMentorId : Nat
  nextPendingId : Nat
  uuidCounter : Nat
  sheetsWrites : List (String × Op × Payload)
deriving DecidableEq, Repr

/-- The queue row inserted by `enqueue_sheets_write` (db.py:249-260): a
fresh uuid key and the table defaults `status='pending'`, `attempts=0`,
`next_retry_at = now + 60s`. -/
def enqueuedRow (now : Nat) (entity_type : String) (operation : Op)
    (payload : Payload) (s : Sys) : PendingRow :=
  { id := s.nextPendingId
    entity_type := entity_type
    operation := operation
    payload := payload
    idempotency_key := s.uuidCounter
    status := .pending
    attempts := 0
    next_retry_at := now + 60
    last_error := none
    created_at := now
    updated_at := now }

/-- `enqueue_sheets_write(entity_type, operation, payload)` (db.py:249-260):
insert one queue row with a fresh idempotency key; committed in its own
transaction. -/
def enqueue_sheets_write (now : Nat) (entity_type : String) (operation : Op)
    (payload : Payload) (s : Sys) : Sys :=
  { s with
    pending := s.pending ++ [enqueuedRow now entity_type operation payload s]
    nextPendingId := s.nextPendingId + 1
    uuidCounter := s.uuidCounter + 1 }

/-- `dual_write(entity_type, operation, payload)` (db.py:403-410) as it
behaves when the caller holds NO open write transaction — the situation of
the three user-update mutations, which commit (set_user_verified,
update_user_role: the `with` block has exited; toggle_user_verification:
explicit `conn.commit()` at db.py:620) before `dual_write` runs, so the
enqueue's own connection can commit.  When sheets are enabled, attempt
`write_to_sheets`; on failure enqueue exactly one PendingWrite.  The
returned Bool is the mirror success.  (`create_user` also calls
`dual_write`, but from inside its still-open transaction, where the
enqueue INSERT deadlocks — that behaviour is modelled in `create_user`
itself.) -/
def dual_write (enabled : Bool) (env : SheetsEnv) (now : Nat)
    (entity_type : String) (operation : Op) (payload : Payload) (s : Sys) :
    Sys × Bool :=
  if enabled then
    if (write_to_sheets env entity_type operation payload).1 then
      ({ s with sheetsWrites := s.sheetsWrites ++ [(entity_type, operation, payload)] }, true)
    else
      (enqueue_sheets_write now entity_type operation payload s, false)
  else (s, false)

/-- The payload dict that `create_user` mirrors (db.py:460-467). -/
def createUserPayload (now uid : Nat) (email password_hash role : String) :
    Payload :=
  ⟨[("id", toString uid), ("email", pyLower email),
    ("password_hash", password_hash), ("role", role),
    ("is_verified", "0"), ("created_at", toString now)]⟩

/-- `create_user(email, password_hash, role)` (db.py:448-470).  The INSERT
is the first statement of the `get_conn()` transaction; a duplicate email
violates the UNIQUE constraint, the transaction is rolled back and the
error propagates, so the caller observes the unchanged state.

The `dual_write` call runs *inside* the still-open transaction, whose
users INSERT holds SQLite's write lock:

* mirror success: no enqueue is attempted; the commit fires at the
  context-manager exit (db.py:75), before the call returns.
* mirror failure: `enqueue_sheets_write` (db.py:255) opens a SECOND
  connection and INSERTs into `pending_sheets_writes`; that INSERT cannot
  acquire the write lock — the holder is the same thread and can never
  commit first — so after the busy timeout it raises
  `sqlite3.OperationalError: database is locked`.  The exception
  propagates through `dual_write` and `create_user`'s `with` block,
  `get_conn` rolls back the users INSERT (db.py:76-78), and the caller
  sees the error with the state unchanged: nothing commits, nothing is
  enqueued. -/
def create_user (enabled : Bool) (env : SheetsEnv) (now : Nat) (s : Sys)
    (email password_hash role : String) : Except String Nat × Sys :=
  if s.users.any (fun u => u.email == pyLower email) then
    (.error "UNIQUE constraint failed: users.email", s)
  else
    let uid := s.nextUserId
    let u : UserRow :=
      { id := uid, email := pyLower email, password_hash := password_hash,
        role := role, is_verified := 0, created_at := now }
    let payload := createUserPayload now uid email password_hash role
    let s1 := { s with users := s.users ++ [u], nextUserId := uid + 1 }
    if enabled then
      if (write_to_sheets env "users" Op.insert payload).1 then
        (.ok uid,
          { s1 with sheetsWrites := s1.sheetsWrites ++ [("users", Op.insert, payload)] })
      else
        (.error "database is locked", s)
    else
      (.ok uid, s1)

/-- `set_user_verified(user_id)` (db.py:579-586): local UPDATE (committed
explicitly before the mirror), then `dual_write` of `{id, is_verified: 1}`. -/
def set_user_verified (enabled : Bool) (env : SheetsEnv) (now : Nat) (s : Sys)
    (uid : Nat) : Sys :=
  let s1 := { s with users := s.users.map (fun u =>
    if u.id == uid then { u with is_verified := 1 } else u) }
  (dual_write enabled env now "users" .update
    ⟨[("id", toString uid), ("is_verified", "1")]⟩ s1).1

/-- `update_user_role(user_id, role)` (db.py:589-604): local UPDATE, then
`dual_write` of `{id, role}`; exceptions are caught and turn into `false`,
the success path returns `true`. -/
def update_user_role (enabled : Bool) (env : SheetsEnv) (now : Nat) (s : Sys)
    (uid : Nat) (role : String) : Sys × Bool :=
  let s1 := { s with users := s.users.map (fun u =>
    if u.id == uid then { u with role := role } else u) }
  ((dual_write enabled env now "users" .update
    ⟨[("id", toString uid), ("role", role)]⟩ s1).1, true)

/-- `toggle_user_verification(user_id)` (db.py:607-629): read the current
flag; absent user → `false`, no mutation, no mirror; otherwise flip it,
then `dual_write` the new value and return `true`. -/
def toggle_user_verification (enabled : Bool) (env : SheetsEnv) (now : Nat)
    (s : Sys) (uid : Nat) : Sys × Bool :=
  match s.users.find? (fun u => u.id == uid) with
  | none => (s, false)
  | some u =>
    let newStatus := if u.is_verified ≠ 0 then 0 else 1
    let s1 := { s with users := s.users.map (fun v =>
      if v.id == uid then { v with is_verified := newStatus } else v) }
    ((dual_write enabled env now "users" .update
      ⟨[("id", toString uid), ("is_verified", toString newStatus)]⟩ s1).1, true)

/-- `delete_user(user_id)` (db.py:632-675).  Absent user → `false`.  When
the user has a mentee profile, the statement
`DELETE FROM sessions WHERE mentee_id = ?` (db.py:657) references a column
that does not exist in `sessions`, so the transaction raises, is rolled
back by `get_conn`, and the outer handler returns `false` with the local
store unchanged.  Otherwise the local rows are deleted and committed, and
the deletion is mirrored via `delete_from_sheets` whose boolean result is
ignored — a failed mirror enqueues nothing. -/
def delete_user (enabled : Bool) (env : SheetsEnv) (s : Sys) (uid : Nat) :
    Sys × Bool :=
  match s.users.find? (fun u => u.id == uid) with
  | none => (s, false)
  | some u =>
    if s.mentees.any (fun m => m.user_id == uid) then (s, false)
    else
      let s1 := { s with
        verifTokens := s.verifTokens.filter (fun t => t.user_id ≠ uid)
        resetTokens := s.resetTokens.filter (fun t => t.user_id ≠ uid)
        sessionsTbl := s.sessionsTbl.filter (fun t => t.user_id ≠ uid)
        users := s.users.filter (fun v => v.id ≠ uid) }
      if enabled then
        -- delete_from_sheets('users', user_to_delete); result ignored
        if (write_to_sheets env "users" .delete u.toPayload).1 then
          ({ s1 with sheetsWrites := s1.sheetsWrites ++ [("users", .delete, u.toPayload)] }, true)
        else (s1, true)
      else (s1, true)

/-- `create_mentor(data)` (db.py:736-756): a plain local INSERT.  The body
contains no sheets call of any kind — nothing is mirrored and nothing is
enqueued. -/
def create_mentor (now : Nat) (s : Sys) (data : Payload) : Sys × Nat :=
  let mid := s.nextMentorId
  let m : MentorRow :=
    { id := mid, first_name := data.getD "first_name",
      last_name := data.getD "last_name", phone := data.get "phone",
      email := data.getD "email", work_profile := data.get "work_profile",
      bio := data.get "bio", profile_pic := data.get "profile_pic",
      is_active := 1, created_at := now }
  ({ s with mentors := s.mentors ++ [m], nextMentorId := mid + 1 }, mid)

/-- The `ORDER BY created_at` relation of the drain query. -/
def createdLE (a b : PendingRow) : Prop :=
  a.created_at ≤ b.created_at

instance : DecidableRel createdLE := fun a b =>
  inferInstanceAs (Decidable (a.created_at ≤ b.created_at))

instance : IsTotal PendingRow createdLE :=
  ⟨fun a b => Nat.le_total a.created_at b.created_at⟩

instance : IsTrans PendingRow createdLE :=
  ⟨fun _ _ _ h h' => Nat.le_trans h h'⟩

/-- The row selection of `process_pending_sheets_writes` (db.py:271-277):
`WHERE status = 'pending' AND next_retry_at <= now ORDER BY created_at
LIMIT 10`. -/
def selectDue (now : Nat) (l : List PendingRow) : List PendingRow :=
  (((l.filter (fun r => r.status == .pending && r.next_retry_at ≤ now))).insertionSort
    createdLE).take 10

/-- The per-row body of the drain loop (db.py:279-313) given the boolean
result of `write_to_sheets` for this row: success deletes the row
(`none`); failure increments the attempt count, and the row is terminally
`failed` once the new count reaches 5, else it is rescheduled as `pending`
with `next_retry_at = now + 60 * attempts` (linear backoff). -/
def process_pending_row (now : Nat) (row : PendingRow) (success : Bool) :
    Option PendingRow :=
  if success then none
  else
    let attempts := row.attempts + 1
    if attempts ≥ 5 then
      some { row with
        status := .failed
        attempts := attempts
        updated_at := now }
    else
      some { row with
        status := .pending
        attempts := attempts
        next_retry_at := now + 60 * attempts
        updated_at := now }

/-- `process_pending_sheets_writes()` (db.py:263-321): nothing happens when
sheets are disabled; otherwise the due rows are selected and each selected
row is deleted or rescheduled according to its mirror outcome (the oracle
`succ`), while unselected rows are untouched. -/
def process_pending_sheets_writes (enabled : Bool) (succ : PendingRow → Bool)
    (now : Nat) (l : List PendingRow) : List PendingRow :=
  if enabled then
    let selected := selectDue now l
    l.filterMap (fun r =>
      if selected.any (fun q => q.id == r.id) then
        process_pending_row now r (succ r)
      else some r)
  else l

/-- Observable events of one write call, in program order.
`enqueuePending` is a PendingWrite INSERT that commits on its own
connection; `enqueueRaises` is a PendingWrite INSERT issued while the
caller's own write transaction is still open, which hits the locked
database and raises. -/
inductive Ev
  | localInsert
  | mirrorAttempt
  | enqueuePending
  | enqueueRaises
  | localCommit
  | localRollback
deriving DecidableEq, Repr

/-- Event trace of `create_user` (db.py:448-470 with `get_conn`,
db.py:70-80).  The whole body runs inside one `get_conn()` block: the
INSERT first; then, still inside the open transaction, `dual_write`.  On
mirror success the commit fires at the context-manager exit, before the
function returns.  On mirror failure the enqueue INSERT on a second
connection cannot acquire the write lock held by this call's own INSERT,
raises `database is locked`, and `get_conn` rolls back — the call never
commits and the error propagates.  A failing local INSERT likewise rolls
back and raises. -/
def create_user_events (localOk enabled mirrorOk : Bool) : List Ev :=
  if localOk then
    if enabled then
      if mirrorOk then [Ev.localInsert, Ev.mirrorAttempt, Ev.localCommit]
      else [Ev.localInsert, Ev.mirrorAttempt, Ev.enqueueRaises, Ev.localRollback]
    else [Ev.localInsert, Ev.localCommit]
  else [Ev.localRollback]

/-- Event trace of `set_user_verified` (db.py:579-586), for contrast: the
UPDATE is committed explicitly inside the block, and `dual_write` runs
after the `with` block has exited. -/
def set_user_verified_events (enabled mirrorOk : Bool) : List Ev :=
  [Ev.localInsert, Ev.localCommit] ++
  (if enabled then
    [Ev.mirrorAttempt] ++ (if mirrorOk then [] else [Ev.enqueuePending])
  else [])

/-- The user-entity mutations that route their mirror through
`dual_write`. -/
inductive UserMut
  | create (email password_hash role : String)
  | setVerified (uid : Nat)
  | updateRole (uid : Nat) (role : String)
  | toggleVerification (uid : Nat)

/-- Run one `UserMut`; the Bool is `true` exactly when the call performed a
local mutation and reached `dual_write`. -/
def apply_user_mut (enabled : Bool) (env : SheetsEnv) (now : Nat) (s : Sys) :
    UserMut → Except String (Sys × Bool)
  | .create email pw role =>
    match create_user enabled env now s email pw role with
    | (.error e, _) => .error e
    | (.ok _, s') => .ok (s', true)
  | .setVerified uid => .ok (set_user_verified enabled env now s uid, true)
  | .updateRole uid role => .ok (update_user_role enabled env now s uid role)
  | .toggleVerification uid => .ok (toggle_user_verification enabled env now s uid)

/-- All idempotency keys in the queue are below the uuid counter, so the
next generated key is fresh.  Preserved by every operation of the model. -/
def keysFresh (s : Sys) : Prop :=
  ∀ q ∈ s.pending, q.idempotency_key < s.uuidCounter

instance (s : Sys) : Decidable (keysFresh s) :=
  inferInstanceAs (Decidable (∀ q ∈ s.pending, q.idempotency_key < s.uuidCounter))

/-! ### Helper lemmas -/

/-- Every row selected by the drain query satisfies its WHERE clause. -/
theorem mem_selectDue {now : Nat} {l : List PendingRow} {r : PendingRow}
    (h : r ∈ selectDue now l) :
    r.status = PStatus.pending ∧ r.next_retry_at ≤ now := by
  unfold selectDue at h
  have h1 := List.take_subset _ _ h
  have h2 := (List.mem_insertionSort createdLE).1 h1
  have h3 := (List.mem_filter).1 h2
  have h4 := h3.2
  simp only [Bool.and_eq_true, beq_iff_eq, decide_eq_true_eq] at h4
  exact h4

/-- `dual_write` with sheets enabled either mirrors or enqueues, depending
only on the `write_to_sheets` result. -/
theorem dual_write_spec (env : SheetsEnv) (now : Nat) (et : String) (op : Op)
    (p : Payload) (s : Sys) :
    ((write_to_sheets env et op p).1 = true
      ∧ dual_write true env now et op p s
        = ({ s with sheetsWrites := s.sheetsWrites ++ [(et, op, p)] }, true))
    ∨ ((write_to_sheets env et op p).1 = false
      ∧ dual_write true env now et op p s
        = (enqueue_sheets_write now et op p s, false)) := by
  unfold dual_write
  by_cases h : (write_to_sheets env et op p).1
  · exact Or.inl ⟨h, by simp [h]⟩
  · exact Or.inr ⟨by simpa using h, by simp [h]⟩

/-! ### Demo fixtures for witnesses and counterexamples -/

/-- An empty database state. -/
def sysEmpty : Sys :=
  { users := [], mentors := [], mentees := [], mentorships := []
    sessionsTbl := [], verifTokens := [], resetTokens := [], pending := []
    nextUserId := 1, nextMentorId := 1, nextPendingId := 1, uuidCounter := 0
    sheetsWrites := [] }

/-- An external store that is completely unreachable: `get_worksheet`
returns `None`, so every mirror write fails. -/
def envDown : SheetsEnv :=
  { worksheet := none, find := fun _ => .raises, readRaises := false
    headerWriteRaises := false, appendRaises := false, updateRaises := false
    deleteRaises := false }

/-- A healthy external store holding one user row whose record lacks the
credential column, and whose `find` locates nothing. -/
def envNoCred : SheetsEnv :=
  { worksheet := some { headers := ["id", "email"], rows := [["1", "x@mtn.com"]] }
    find := fun _ => .notFound
    readRaises := false, headerWriteRaises := false, appendRaises := false
    updateRaises := false, deleteRaises := false }

/-- A local user row used by the demos. -/
def userJo : UserRow :=
  { id := 1, email := "x@mtn.com", password_hash := "H", role := "user"
    is_verified := 1, created_at := 3 }

/-- A demo pending row. -/
def demoRow (i : Nat) (st : PStatus) (retry created : Nat) : PendingRow :=
  { id := i, entity_type := "users", operation := .insert, payload := ⟨[]⟩
    idempotency_key := i, status := st, attempts := 0, next_retry_at := retry
    last_error := none, created_at := created, updated_at := created }

/-- A demo queue: two due pending rows out of creation order, one not yet
due, one terminally failed. -/
def demoQueue : List PendingRow :=
  [demoRow 1 .pending 160 100, demoRow 2 .pending 300 50,
   demoRow 3 .failed 0 10, demoRow 4 .pending 100 20]

/-! ### Claims -/

/-- C4: for every PendingWrite processed by a drain pass, mirror success
deletes the row; mirror failure increments its attempt count by exactly 1,
reschedules it as `pending` with `next_retry_at = now + 60 * attempts`
while the new count is below 5, and marks it `failed` exactly when the new
count reaches 5, never earlier. -/
theorem drain_row_outcome (now : Nat) (row : PendingRow) (success : Bool) :
    (success = true → process_pending_row now row success = none)
    ∧ (success = false →
        ∃ row', process_pending_row now row success = some row'
          ∧ row'.attempts = row.attempts + 1
          ∧ (row.attempts + 1 < 5 →
              row'.status = PStatus.pending
              ∧ row'.next_retry_at = now + 60 * (row.attempts + 1))
          ∧ (row'.status = PStatus.failed ↔ 5 ≤ row.attempts + 1)) := by
  constructor
  · intro h; subst h; rfl
  · intro h; subst h
    by_cases h5 : row.attempts + 1 ≥ 5
    · refine ⟨{ row with
          status := .failed, attempts := row.attempts + 1, updated_at := now },
        ?_, rfl, ?_, ?_⟩
      · simp [process_pending_row, h5]
      · intro hlt; omega
      · simp [h5]
    · refine ⟨{ row with
          status := .pending, attempts := row.attempts + 1,
          next_retry_at := now + 60 * (row.attempts + 1), updated_at := now },
        ?_, rfl, ?_, ?_⟩
      · simp [process_pending_row, h5]
      · intro _; exact ⟨rfl, rfl⟩
      · simp
        omega

/-- C4 witness: a freshly enqueued row (attempts 0) failing its first
retry at time 100 gets attempts 1, stays pending, and is rescheduled for
time 160. -/
theorem drain_row_outcome_witness :
    ∃ row', process_pending_row 100 (demoRow 1 .pending 160 40) false = some row'
      ∧ row'.attempts = (demoRow 1 .pending 160 40).attempts + 1
      ∧ ((demoRow 1 .pending 160 40).attempts + 1 < 5 →
          row'.status = PStatus.pending
          ∧ row'.next_retry_at = 100 + 60 * ((demoRow 1 .pending 160 40).attempts + 1))
      ∧ (row'.status = PStatus.failed ↔ 5 ≤ (demoRow 1 .pending 160 40).attempts + 1) :=
  (drain_row_outcome 100 (demoRow 1 .pending 160 40) false).2 rfl

/-- C5: every drain pass selects at most 10 queue rows, selects only rows
whose status is `pending` and whose `next_retry_at` has elapsed, and
processes them ordered by creation time, oldest first. -/
theorem drain_selects_due_pending_fifo (now : Nat) (l : List PendingRow) :
    (selectDue now l).length ≤ 10
    ∧ (∀ r ∈ selectDue now l, r.status = PStatus.pending ∧ r.next_retry_at ≤ now)
    ∧ List.Sorted createdLE (selectDue now l) := by
  refine ⟨List.length_take_le _ _, fun r hr => mem_selectDue hr, ?_⟩
  exact List.Pairwise.sublist (List.take_sublist _ _)
    (List.sorted_insertionSort createdLE _)

/-- C5 witness on the demo queue at time 200: only the two due pending
rows are selected, in creation order. -/
theorem drain_selects_due_pending_fifo_witness :
    (selectDue 200 demoQueue).length ≤ 10
    ∧ (∀ r ∈ selectDue 200 demoQueue,
        r.status = PStatus.pending ∧ r.next_retry_at ≤ 200)
    ∧ List.Sorted createdLE (selectDue 200 demoQueue) :=
  drain_selects_due_pending_fifo 200 demoQueue

/-- C9: every PendingWrite created by `enqueue_sheets_write` starts with
status `pending`, attempt count 0, and `next_retry_at` equal to its
creation time plus 60 seconds, so no drain pass running earlier than 60
seconds after the mirror failure selects it. -/
theorem enqueue_defaults_and_min_delay (now : Nat) (et : String) (op : Op)
    (p : Payload) (s : Sys) (t : Nat) (ht : t < now + 60) :
    ∃ r, (enqueue_sheets_write now et op p s).pending = s.pending ++ [r]
      ∧ r.status = PStatus.pending ∧ r.attempts = 0
      ∧ r.created_at = now ∧ r.next_retry_at = now + 60
      ∧ r ∉ selectDue t (enqueue_sheets_write now et op p s).pending := by
  refine ⟨_, rfl, rfl, rfl, rfl, rfl, ?_⟩
  intro hmem
  have h := (mem_selectDue hmem).2
  simp only [enqueuedRow] at h
  omega

/-- C9 witness: a write enqueued at time 100 is not selected by a drain at
time 130. -/
theorem enqueue_defaults_and_min_delay_witness :
    ∃ r, (enqueue_sheets_write 100 "users" Op.insert ⟨[]⟩ sysEmpty).pending
        = sysEmpty.pending ++ [r]
      ∧ r.status = PStatus.pending ∧ r.attempts = 0
      ∧ r.created_at = 100 ∧ r.next_retry_at = 100 + 60
      ∧ r ∉ selectDue 130 (enqueue_sheets_write 100 "users" Op.insert ⟨[]⟩ sysEmpty).pending :=
  enqueue_defaults_and_min_delay 100 "users" Op.insert ⟨[]⟩ sysEmpty 130 (by decide)

/-- C6: when mirroring an `update` whose payload carries an id, a target
that cannot be located in the worksheet — `find` returning no cell or
raising — makes the mirror perform the insert of the payload instead of
reporting failure, and the mirror call succeeds whenever that insert
does. -/
theorem update_missing_target_becomes_insert (env : SheetsEnv) (et : String)
    (p : Payload) (idv : String)
    (hid : p.get "id" = some idv) (hne : idv ≠ "")
    (hnf : env.find idv = FindOutcome.notFound ∨ env.find idv = FindOutcome.raises) :
    write_to_sheets env et Op.update p = write_to_sheets env et Op.insert p
    ∧ ((write_to_sheets env et Op.insert p).1 = true →
        (write_to_sheets env et Op.update p).1 = true) := by
  have key : write_to_sheets env et Op.update p = write_to_sheets env et Op.insert p := by
    cases hws : env.worksheet with
    | none => simp [write_to_sheets, hws]
    | some ws =>
      rcases hnf with h | h <;> simp [write_to_sheets, hws, hid, hne, h]
  exact ⟨key, fun h => key ▸ h⟩

/-- C6 witness: updating id 7, absent from the worksheet, appends the
payload row and succeeds. -/
theorem update_missing_target_becomes_insert_witness :
    write_to_sheets envNoCred "users" Op.update ⟨[("id", "7"), ("email", "b@x.com")]⟩
      = write_to_sheets envNoCred "users" Op.insert ⟨[("id", "7"), ("email", "b@x.com")]⟩
    ∧ ((write_to_sheets envNoCred "users" Op.insert ⟨[("id", "7"), ("email", "b@x.com")]⟩).1 = true →
        (write_to_sheets envNoCred "users" Op.update ⟨[("id", "7"), ("email", "b@x.com")]⟩).1 = true) :=
  update_missing_target_becomes_insert envNoCred "users"
    ⟨[("id", "7"), ("email", "b@x.com")]⟩ "7" rfl (by decide) (Or.inl rfl)

/-- C7: reading a user by email consults the external store first with an
exact case-insensitive filter on every filter field; if the read fails,
matches nothing, or the matched record lacks `password_hash` even after
the `password` alias, the result is the local store's row for that email;
a usable external record is returned as-is. -/
theorem read_user_by_email_fallback (env : SheetsEnv) (users : List UserRow)
    (email : String) :
    (∀ fs : List (String × String), fs ≠ [] →
      ∀ r ∈ read_from_sheets env fs, ∀ kv ∈ fs, pyLower (r.getD kv.1) = pyLower kv.2)
    ∧ (read_from_sheets env [("email", pyLower email)] = [] →
        get_user_by_email true env users email = localUserByEmail users email)
    ∧ (∀ r rest, read_from_sheets env [("email", pyLower email)] = r :: rest →
        ((aliasCredential r).get "password_hash").isNone = true →
        get_user_by_email true env users email = localUserByEmail users email)
    ∧ (∀ r rest, read_from_sheets env [("email", pyLower email)] = r :: rest →
        ((aliasCredential r).get "password_hash").isSome = true →
        get_user_by_email true env users email = some (aliasCredential r)) := by
  refine ⟨?_, ?_, ?_, ?_⟩
  · intro fs hfs r hr kv hkv
    unfold read_from_sheets at hr
    cases hws : env.worksheet with
    | none => rw [hws] at hr; simp at hr
    | some ws =>
      rw [hws] at hr
      by_cases hrr : env.readRaises
      · simp [hrr] at hr
      · simp only [hrr, if_false, List.isEmpty_eq_true] at hr
        rw [if_neg hfs] at hr
        have h2 := (List.mem_filter.1 hr).2
        have h3 := List.all_eq_true.1 h2 kv hkv
        exact of_decide_eq_true (by simpa using h3)
  · intro h; simp [get_user_by_email, h]
  · intro r rest h hnone
    simp [get_user_by_email, h, hnone]
  · intro r rest h hsome
    have hnone : ((aliasCredential r).get "password_hash").isNone = false := by
      cases hc : (aliasCredential r).get "password_hash" with
      | none => rw [hc] at hsome; simp at hsome
      | some v => simp
    simp [get_user_by_email, h, hnone]

/-- C7 witness: the claim's scenario — the external record for
`x@mtn.com` lacks the credential field, so the read returns the local
store's row for that email. -/
theorem read_user_by_email_fallback_witness :
    get_user_by_email true envNoCred [userJo] "x@mtn.com"
      = localUserByEmail [userJo] "x@mtn.com" :=
  (read_user_by_email_fallback envNoCred [userJo] "x@mtn.com").2.2.1
    ⟨[("id", "1"), ("email", "x@mtn.com")]⟩ [] (by decide) (by decide)

/-- C8: when the local INSERT of `create_user` fails (UNIQUE email), the
error propagates to the caller, the transaction is rolled back so the
local store is unchanged, and no PendingWrite is enqueued and no mirror
write is attempted. -/
theorem local_insert_failure_rolls_back (enabled : Bool) (env : SheetsEnv)
    (now : Nat) (s : Sys) (email pw role : String)
    (hdup : s.users.any (fun u => u.email == pyLower email) = true) :
    (∃ e, (create_user enabled env now s email pw role).1 = Except.error e)
    ∧ (create_user enabled env now s email pw role).2 = s
    ∧ (create_user enabled env now s email pw role).2.pending = s.pending
    ∧ (create_user enabled env now s email pw role).2.sheetsWrites = s.sheetsWrites := by
  unfold create_user
  simp [hdup]

/-- C8 witness: re-registering `x@MTN.com` over the existing user fails
and leaves the state untouched, with nothing queued. -/
theorem local_insert_failure_rolls_back_witness :
    (∃ e, (create_user true envDown 100 { sysEmpty with users := [userJo] }
        "x@MTN.com" "h2" "user").1 = Except.error e)
    ∧ (create_user true envDown 100 { sysEmpty with users := [userJo] }
        "x@MTN.com" "h2" "user").2 = { sysEmpty with users := [userJo] }
    ∧ (create_user true envDown 100 { sysEmpty with users := [userJo] }
        "x@MTN.com" "h2" "user").2.pending = ({ sysEmpty with users := [userJo] } : Sys).pending
    ∧ (create_user true envDown 100 { sysEmpty with users := [userJo] }
        "x@MTN.com" "h2" "user").2.sheetsWrites
        = ({ sysEmpty with users := [userJo] } : Sys).sheetsWrites :=
  local_insert_failure_rolls_back true envDown 100 { sysEmpty with users := [userJo] }
    "x@MTN.com" "h2" "user" (by decide)

/-- The id field of a user-list payload built from a local row. -/
theorem toListPayload_get_id (u : UserRow) :
    (UserRow.toListPayload u).get "id" = some (toString u.id) := rfl

/-- C10: every record returned by `list_users` carries an id present in
the local users table — external rows with unknown ids are filtered out —
and when no external row passes that filter the result is exactly the
local user list. -/
theorem list_users_ids_exist_locally (enabled : Bool) (env : SheetsEnv)
    (users : List UserRow) :
    (∀ r ∈ list_users enabled env users,
        ∃ u ∈ users, r.get "id" = some (toString u.id))
    ∧ ((if enabled then read_from_sheets env [] else []).filter (fun r =>
          match r.get "id" with
          | some v => (users.map (fun u => toString u.id)).contains v
          | none => false) = [] →
        list_users enabled env users = users.map UserRow.toListPayload) := by
  have hmap : ∀ r ∈ users.map UserRow.toListPayload,
      ∃ u ∈ users, r.get "id" = some (toString u.id) := by
    intro r hr
    obtain ⟨u, hu, rfl⟩ := List.mem_map.1 hr
    exact ⟨u, hu, toListPayload_get_id u⟩
  unfold list_users
  cases enabled with
  | false => exact ⟨hmap, fun _ => rfl⟩
  | true =>
    by_cases hempty : (read_from_sheets env []).isEmpty
    · have hnil : read_from_sheets env [] = [] := List.isEmpty_eq_true.1 hempty
      simp only [hnil]
      exact ⟨hmap, fun _ => rfl⟩
    · simp only [Bool.true_and, hempty, Bool.not_false, if_true]
      by_cases hvalid : ((read_from_sheets env []).filter (fun r =>
          match r.get "id" with
          | some v => (users.map (fun u => toString u.id)).contains v
          | none => false)).isEmpty
      · rw [if_pos hvalid]
        refine ⟨hmap, fun _ => rfl⟩
      · rw [if_neg hvalid]
        refine ⟨?_, ?_⟩
        · intro r hr
          have := (List.mem_filter.1 hr).2
          cases hid : r.get "id" with
          | none => rw [hid] at this; simp at this
          | some v =>
            rw [hid] at this
            simp only at this
            have hv : v ∈ users.map (fun u => toString u.id) :=
              List.elem_iff.1 this
            obtain ⟨u, hu, rfl⟩ := List.mem_map.1 hv
            exact ⟨u, hu, rfl⟩
        · intro hfe
          exact absurd (by rw [hfe]; rfl) hvalid

/-- C10 witness: with one valid external row the result is that row, whose
id exists locally; and with the external store down the result is exactly
the local list. -/
theorem list_users_ids_exist_locally_witness :
    (∀ r ∈ list_users true envNoCred [userJo],
        ∃ u ∈ [userJo], r.get "id" = some (toString u.id))
    ∧ (∀ r ∈ list_users true envDown [userJo],
        ∃ u ∈ [userJo], r.get "id" = some (toString u.id)) :=
  ⟨(list_users_ids_exist_locally true envNoCred [userJo]).1,
   (list_users_ids_exist_locally true envDown [userJo]).1⟩

/-- Core of the corrected dual-write invariant: a `dual_write` call with
sheets enabled either mirrors (sheets log grows, queue untouched) or
enqueues exactly one fresh PendingWrite (log untouched) — never both.
`s` is the post-local-mutation state, `base` the pre-call state; the
mutation leaves the queue, log and uuid counter untouched. -/
theorem dual_write_xor (env : SheetsEnv) (now : Nat) (et : String) (op : Op)
    (p : Payload) (s base : Sys)
    (hp : s.pending = base.pending) (hw : s.sheetsWrites = base.sheetsWrites)
    (hu : s.uuidCounter = base.uuidCounter) (hf : keysFresh base) :
    (((dual_write true env now et op p s).1.sheetsWrites.length
        = base.sheetsWrites.length + 1
      ∧ (dual_write true env now et op p s).1.pending = base.pending)
     ∨ ((dual_write true env now et op p s).1.sheetsWrites = base.sheetsWrites
      ∧ ∃ q, (dual_write true env now et op p s).1.pending = base.pending ++ [q]
        ∧ q.status = PStatus.pending
        ∧ ∀ q' ∈ base.pending, q'.idempotency_key ≠ q.idempotency_key))
    ∧ ¬((dual_write true env now et op p s).1.sheetsWrites ≠ base.sheetsWrites
        ∧ (dual_write true env now et op p s).1.pending ≠ base.pending) := by
  rcases dual_write_spec env now et op p s with ⟨_, heq⟩ | ⟨_, heq⟩
  · rw [heq]
    refine ⟨Or.inl ⟨by simp [hw], by simpa using hp⟩, ?_⟩
    intro ⟨_, hne⟩
    exact hne (by simpa using hp)
  · rw [heq]
    refine ⟨Or.inr ⟨by simpa [enqueue_sheets_write] using hw, ?_⟩, ?_⟩
    · refine ⟨enqueuedRow now et op p s,
        by simp [enqueue_sheets_write, hp], rfl, ?_⟩
      intro q' hq'
      have hlt := hf q' hq'
      simp only [enqueuedRow]
      omega
    · intro ⟨hne, _⟩
      exact hne (by simpa [enqueue_sheets_write] using hw)

/-- C1 counterexample: `create_mentor` performs a successful local
mutation over the mentors entity, yet nothing is mirrored and no
PendingWrite is created — the invariant's "never neither" fails. -/
theorem mentor_insert_neither_mirrored_nor_enqueued :
    ((create_mentor 5 sysEmpty
        ⟨[("first_name", "Jo"), ("last_name", "Doe"), ("email", "jo@x.com")]⟩).1.mentors.length
      = sysEmpty.mentors.length + 1)
    ∧ (create_mentor 5 sysEmpty
        ⟨[("first_name", "Jo"), ("last_name", "Doe"), ("email", "jo@x.com")]⟩).1.sheetsWrites
      = sysEmpty.sheetsWrites
    ∧ (create_mentor 5 sysEmpty
        ⟨[("first_name", "Jo"), ("last_name", "Doe"), ("email", "jo@x.com")]⟩).1.pending
      = sysEmpty.pending := by
  decide

/-- C1 (amended): for the user-entity mutations that route their mirror
through `dual_write` — create_user, set_user_verified, update_user_role,
toggle_user_verification — with sheets enabled, every call that completes
with a committed local mutation either mirrors immediately or creates
exactly one PendingWrite with a fresh idempotency key, never both.  For
create_user the enqueue alternative is unreachable: its `dual_write` runs
inside the open transaction, so a failed mirror makes the nested enqueue
raise `database is locked` and the whole call roll back — a committed
create_user mutation is always mirrored, and the enqueue branch is
exercised only by the three update mutations, which commit first.
(Mutations over mentors, mentees, mentorships and sessions never mirror
nor enqueue, and delete_user ignores mirror failures.) -/
theorem user_mutations_mirror_xor_enqueue (env : SheetsEnv) (now : Nat)
    (s : Sys) (m : UserMut) (s' : Sys) (hf : keysFresh s)
    (hok : apply_user_mut true env now s m = Except.ok (s', true)) :
    ((s'.sheetsWrites.length = s.sheetsWrites.length + 1 ∧ s'.pending = s.pending)
     ∨ (s'.sheetsWrites = s.sheetsWrites
        ∧ ∃ q, s'.pending = s.pending ++ [q]
          ∧ q.status = PStatus.pending
          ∧ ∀ q' ∈ s.pending, q'.idempotency_key ≠ q.idempotency_key))
    ∧ ¬(s'.sheetsWrites ≠ s.sheetsWrites ∧ s'.pending ≠ s.pending) := by
  cases m with
  | create email pw role =>
    by_cases hdup : s.users.any (fun u => u.email == pyLower email)
    · simp [apply_user_mut, create_user, hdup] at hok
    · by_cases hmir : (write_to_sheets env "users" Op.insert
          (createUserPayload now s.nextUserId email pw role)).1
      · simp only [apply_user_mut, create_user, hdup, Bool.false_eq_true,
          if_false, hmir, if_true, Except.ok.injEq, Prod.mk.injEq, and_true] at hok
        subst hok
        refine ⟨Or.inl ⟨by simp, rfl⟩, ?_⟩
        intro hb
        exact hb.2 rfl
      · simp [apply_user_mut, create_user, hdup, hmir] at hok
  | setVerified uid =>
    simp only [apply_user_mut, Except.ok.injEq, Prod.mk.injEq, and_true] at hok
    subst hok
    unfold set_user_verified
    exact dual_write_xor env now "users" Op.update _ _ s rfl rfl rfl hf
  | updateRole uid role =>
    simp only [apply_user_mut, update_user_role, Except.ok.injEq,
      Prod.mk.injEq, and_true] at hok
    subst hok
    exact dual_write_xor env now "users" Op.update _ _ s rfl rfl rfl hf
  | toggleVerification uid =>
    cases hfind : s.users.find? (fun u => u.id == uid) with
    | none => simp [apply_user_mut, toggle_user_verification, hfind] at hok
    | some u =>
      simp only [apply_user_mut, toggle_user_verification, hfind,
        Except.ok.injEq, Prod.mk.injEq, and_true] at hok
      subst hok
      exact dual_write_xor env now "users" Op.update _ _ s rfl rfl rfl hf

/-- The demo state holding one user. -/
def sysU : Sys := { sysEmpty with users := [userJo] }

/-- The state after verifying user 1 against an unreachable external
store. -/
def sVerified : Sys := set_user_verified true envDown 100 sysU 1

/-- C1 witness: verifying user 1 with the external store down mirrors
nothing and enqueues exactly one fresh PendingWrite. -/
theorem user_mutations_mirror_xor_enqueue_witness :
    ((sVerified.sheetsWrites.length = sysU.sheetsWrites.length + 1
      ∧ sVerified.pending = sysU.pending)
     ∨ (sVerified.sheetsWrites = sysU.sheetsWrites
        ∧ ∃ q, sVerified.pending = sysU.pending ++ [q]
          ∧ q.status = PStatus.pending
          ∧ ∀ q' ∈ sysU.pending, q'.idempotency_key ≠ q.idempotency_key))
    ∧ ¬(sVerified.sheetsWrites ≠ sysU.sheetsWrites ∧ sVerified.pending ≠ sysU.pending) :=
  user_mutations_mirror_xor_enqueue envDown 100 sysU (.setVerified 1) sVerified
    (by decide) rfl

/-- C2 counterexample: in a `create_user` call with sheets enabled, both
the mirror attempt and the local commit occur, and the commit does NOT
precede the mirror attempt — `dual_write` runs inside the still-open
transaction. -/
theorem create_user_commit_not_before_mirror :
    Ev.mirrorAttempt ∈ create_user_events true true true
    ∧ Ev.localCommit ∈ create_user_events true true true
    ∧ ¬(List.indexOf Ev.localCommit (create_user_events true true true)
        < List.indexOf Ev.mirrorAttempt (create_user_events true true true)) := by
  decide

/-- C2 (amended): within `create_user` the mirror attempt happens inside
the still-open transaction, before any commit.  When the mirror succeeds
(or sheets are disabled) the commit is the call's last event — before the
function returns — so a reader immediately after a successful return sees
the local store updated.  When the mirror fails the call never commits:
the enqueue INSERT raises `database is locked` and the transaction ends
in rollback.  `set_user_verified`, by contrast, commits before
mirroring. -/
theorem create_user_mirror_in_txn_commit_before_return (enabled mirrorOk : Bool) :
    ((mirrorOk = true ∨ enabled = false) →
      (create_user_events true enabled mirrorOk).getLast? = some Ev.localCommit)
    ∧ (enabled = true → mirrorOk = true →
        Ev.mirrorAttempt ∈ create_user_events true enabled mirrorOk
        ∧ List.indexOf Ev.mirrorAttempt (create_user_events true enabled mirrorOk)
            < List.indexOf Ev.localCommit (create_user_events true enabled mirrorOk))
    ∧ (enabled = true → mirrorOk = false →
        create_user_events true enabled mirrorOk
          = [Ev.localInsert, Ev.mirrorAttempt, Ev.enqueueRaises, Ev.localRollback])
    ∧ (enabled = true →
        List.indexOf Ev.localCommit (set_user_verified_events enabled mirrorOk)
          < List.indexOf Ev.mirrorAttempt (set_user_verified_events enabled mirrorOk)) := by
  cases enabled <;> cases mirrorOk <;> decide

/-- C2 witness: the amended ordering at the concrete traces — mirror
success commits last with the mirror inside the transaction; mirror
failure ends in enqueue-raises then rollback, with no commit. -/
theorem create_user_mirror_in_txn_commit_before_return_witness :
    (create_user_events true true true).getLast? = some Ev.localCommit
    ∧ Ev.mirrorAttempt ∈ create_user_events true true true
    ∧ List.indexOf Ev.mirrorAttempt (create_user_events true true true)
        < List.indexOf Ev.localCommit (create_user_events true true true)
    ∧ create_user_events true true false
        = [Ev.localInsert, Ev.mirrorAttempt, Ev.enqueueRaises, Ev.localRollback]
    ∧ List.indexOf Ev.localCommit (set_user_verified_events true true)
        < List.indexOf Ev.mirrorAttempt (set_user_verified_events true true) :=
  ⟨(create_user_mirror_in_txn_commit_before_return true true).1 (Or.inl rfl),
   ((create_user_mirror_in_txn_commit_before_return true true).2.1 rfl rfl).1,
   ((create_user_mirror_in_txn_commit_before_return true true).2.1 rfl rfl).2,
   (create_user_mirror_in_txn_commit_before_return true false).2.2.1 rfl rfl,
   (create_user_mirror_in_txn_commit_before_return true true).2.2.2 rfl⟩

/-- C3 counterexample: deleting user 1 with the external store
unreachable — the local deletion succeeds and is reported as success, the
mirror write fails, yet zero PendingWrites are enqueued. -/
theorem delete_mirror_failure_enqueues_nothing :
    (write_to_sheets envDown "users" Op.delete userJo.toPayload).1 = false
    ∧ (delete_user true envDown sysU 1).2 = true
    ∧ (delete_user true envDown sysU 1).1.users = []
    ∧ (delete_user true envDown sysU 1).1.pending = sysU.pending := by
  decide

/-- C3 (amended): only the update mirrors issued AFTER the local commit
(set_user_verified, update_user_role, toggle_user_verification, all via
`dual_write` with no transaction open) satisfy the claim — the failure is
not raised and exactly one fresh PendingWrite is enqueued.  create_user's
insert mirror failure is raised to the caller: its `dual_write` runs
inside the open transaction, the nested enqueue INSERT hits the locked
database, and the call rolls back with zero PendingWrites.  delete_user's
delete mirror failure is ignored, also with zero PendingWrites. -/
theorem mirror_failure_enqueues_exactly_one (env : SheetsEnv) (now : Nat)
    (et : String) (op : Op) (p : Payload) (s : Sys) (hf : keysFresh s)
    (hfail : (write_to_sheets env et op p).1 = false) :
    ((dual_write true env now et op p s).2 = false
    ∧ ∃ q, (dual_write true env now et op p s).1.pending = s.pending ++ [q]
        ∧ q.status = PStatus.pending ∧ q.attempts = 0
        ∧ ∀ q' ∈ s.pending, q'.idempotency_key ≠ q.idempotency_key)
    ∧ (∀ email pw role,
        s.users.any (fun u => u.email == pyLower email) = false →
        (write_to_sheets env "users" Op.insert
            (createUserPayload now s.nextUserId email pw role)).1 = false →
        create_user true env now s email pw role
          = (Except.error "database is locked", s))
    ∧ (∀ uid, (delete_user true env s uid).1.pending = s.pending) := by
  refine ⟨?_, ?_, ?_⟩
  · rcases dual_write_spec env now et op p s with ⟨hok, _⟩ | ⟨_, heq⟩
    · rw [hok] at hfail; cases hfail
    · rw [heq]
      refine ⟨rfl, enqueuedRow now et op p s,
        by simp [enqueue_sheets_write], rfl, rfl, ?_⟩
      intro q' hq'
      have hlt := hf q' hq'
      simp only [enqueuedRow]
      omega
  · intro email pw role hn hmf
    simp [create_user, hn, hmf]
  · intro uid
    unfold delete_user
    cases hfind : s.users.find? (fun u => u.id == uid) with
    | none => rfl
    | some u =>
      by_cases hm : s.mentees.any (fun m => m.user_id == uid)
      · simp [hm]
      · by_cases hw : (write_to_sheets env "users" Op.delete u.toPayload).1
        · simp [hm, hw]
        · simp [hm, hw]

/-- C3 witness: at the demo state, a failing users-insert mirror through
`dual_write` (committed-caller context) enqueues exactly one fresh
PendingWrite; a mirror-failed `create_user` instead raises the locked
error with nothing enqueued; a mirror-failed `delete_user` enqueues
nothing. -/
theorem mirror_failure_enqueues_exactly_one_witness :
    ((dual_write true envDown 100 "users" Op.insert ⟨[]⟩ sysU).2 = false
    ∧ ∃ q, (dual_write true envDown 100 "users" Op.insert ⟨[]⟩ sysU).1.pending
          = sysU.pending ++ [q]
        ∧ q.status = PStatus.pending ∧ q.attempts = 0
        ∧ ∀ q' ∈ sysU.pending, q'.idempotency_key ≠ q.idempotency_key)
    ∧ (∀ uid, (delete_user true envDown sysU uid).1.pending = sysU.pending)
    ∧ create_user true envDown 100 sysU "a@x.com" "h" "user"
        = (Except.error "database is locked", sysU) :=
  ⟨(mirror_failure_enqueues_exactly_one envDown 100 "users" Op.insert ⟨[]⟩ sysU
      (by decide) rfl).1,
   (mirror_failure_enqueues_exactly_one envDown 100 "users" Op.insert ⟨[]⟩ sysU
      (by decide) rfl).2.2,
   (mirror_failure_enqueues_exactly_one envDown 100 "users" Op.insert ⟨[]⟩ sysU
      (by decide) rfl).2.1 "a@x.com" "h" "user" (by decide) (by decide)⟩

end YLN
